import Mathlib

set_option maxRecDepth 100000

/-!
# Verification of the competitor-intelligence agent pipeline

A shallow embedding of `main.py` of the `ai-competitor-agents` repository:
the three agent stages (`firecrawl_agent`, `analysis_agent`, `comparison_agent`),
the driver (`run_competitor_analysis`), and the text-extraction helpers they use
(`re.search` bracket spans, `json.loads`, Python string `split`/`strip`/`in`).

External services (the LLM and the Tavily search client) are modelled as
explicit inputs: each `llm.invoke(...).content` result is one string argument,
and the search client is a function from (query, max_results) to either a
response or a raised error.
-/

/-! ## Python string primitives, modelled over `List Char` -/

/-- The whitespace characters recognised by Python `str.strip()` (ASCII subset;
the inputs appearing in this development contain no exotic whitespace). -/
def pyIsSpace (c : Char) : Bool :=
  c = ' ' || c = '\t' || c = '\n' || c = '\r' || c = '\x0b' || c = '\x0c'

/-- Python `str.strip()`: remove leading and trailing whitespace. -/
def pyStrip (s : String) : String :=
  ⟨((s.toList.dropWhile pyIsSpace).reverse.dropWhile pyIsSpace).reverse⟩

/-- Python `len` on a string. -/
def pyLenS (s : String) : Nat := s.toList.length

/-- Python truthiness of a string: nonempty. -/
def pyTruthy (s : String) : Bool := !s.toList.isEmpty

/-- Worker for `pySplit`: scan the text, emitting a fragment whenever the
separator occurs as a prefix of the remaining text.  The accumulated current
fragment is kept reversed.  Fuel is an upper bound on the number of scanning
steps; it is always instantiated to more than the length of the text, so the
fuel-exhausted equation is never reached. -/
def pySplitAux (sep : List Char) : Nat → List Char → List Char → List (List Char)
  | _, [], acc => [acc.reverse]
  | 0, rest, acc => [acc.reverse ++ rest]
  | fuel + 1, c :: cs, acc =>
    if sep.isPrefixOf (c :: cs) then
      acc.reverse :: pySplitAux sep fuel (List.drop sep.length (c :: cs)) []
    else
      pySplitAux sep fuel cs (c :: acc)

/-- Python `s.split(sep)` for a nonempty separator (Python raises on an empty
separator; every separator used by the program is a fixed nonempty literal). -/
def pySplit (sep s : String) : List String :=
  (pySplitAux sep.toList (s.toList.length + 1) s.toList []).map (fun l => ⟨l⟩)

/-- Worker for `pyContains`: does the pattern occur as a prefix of any suffix? -/
def pyContainsAux (pat : List Char) : List Char → Bool
  | [] => pat.isEmpty
  | c :: cs => pat.isPrefixOf (c :: cs) || pyContainsAux pat cs

/-- Python `pat in s` substring test. -/
def pyContains (s pat : String) : Bool := pyContainsAux pat.toList s.toList

/-- Python slicing `s[:n]` on a string. -/
def pyTake (s : String) (n : Nat) : String := ⟨s.toList.take n⟩

/-- Index of the first occurrence of a character in a list. -/
def firstIdx (c : Char) : List Char → Option Nat
  | [] => none
  | x :: xs => if x = c then some 0 else (firstIdx c xs).map (· + 1)

/-- Index of the last occurrence of a character in a list. -/
def lastIdx (c : Char) (l : List Char) : Option Nat :=
  (firstIdx c l.reverse).map (fun k => l.length - 1 - k)

/-- Model of the `re.search` greedy bracket-span patterns of `main.py` (the
array pattern and its brace variant under DOTALL):
with a greedy `.*` under DOTALL the match, when it exists, runs from the
first opening bracket to the last closing bracket, and it exists exactly when
some closing bracket lies strictly after the first opening bracket (the last
closing bracket is after the first opener iff any closer is after any opener). -/
def reSpan (openC closeC : Char) (s : String) : Option String :=
  let l := s.toList
  match firstIdx openC l, lastIdx closeC l with
  | some i, some j => if i < j then some ⟨(l.drop i).take (j + 1 - i)⟩ else none
  | _, _ => none

/-! ## JSON values and a model of `json.loads`

The parser covers the JSON fragment that can appear in this program:
objects, arrays, strings with the common escapes, integers, booleans and
null, with the four JSON whitespace characters.  (Fractional-number syntax is
not modelled; no claim evaluates the parser on a fractional literal.)
`json.loads` requires the whole text to be consumed. -/

inductive Json where
  | null
  | bool (b : Bool)
  | num (n : Int)
  | str (s : String)
  | arr (elems : List Json)
  | obj (members : List (String × Json))
deriving Repr

/-- JSON whitespace. -/
def skipWs (cs : List Char) : List Char :=
  cs.dropWhile (fun c => c = ' ' || c = '\t' || c = '\n' || c = '\r')

/-- Parse the body of a JSON string literal (the opening quote already
consumed), handling the single-character escapes. -/
def parseStringBody : Nat → List Char → List Char → Option (String × List Char)
  | 0, _, _ => none
  | _ + 1, [], _ => none
  | fuel + 1, c :: cs, acc =>
    if c = '"' then some (⟨acc.reverse⟩, cs)
    else if c = '\\' then
      match cs with
      | '"' :: cs2 => parseStringBody fuel cs2 ('"' :: acc)
      | '\\' :: cs2 => parseStringBody fuel cs2 ('\\' :: acc)
      | '/' :: cs2 => parseStringBody fuel cs2 ('/' :: acc)
      | 'n' :: cs2 => parseStringBody fuel cs2 ('\n' :: acc)
      | 't' :: cs2 => parseStringBody fuel cs2 ('\t' :: acc)
      | 'r' :: cs2 => parseStringBody fuel cs2 ('\r' :: acc)
      | 'b' :: cs2 => parseStringBody fuel cs2 ('\x08' :: acc)
      | 'f' :: cs2 => parseStringBody fuel cs2 ('\x0c' :: acc)
      | _ => none
    else parseStringBody fuel cs (c :: acc)

/-- Digit run to a natural number. -/
def digitsToNat (ds : List Char) : Nat :=
  ds.foldl (fun acc c => acc * 10 + (c.toNat - '0'.toNat)) 0

/-- Parse a nonempty run of digits. -/
def parseNat (cs : List Char) : Option (Nat × List Char) :=
  let ds := cs.takeWhile Char.isDigit
  if ds.isEmpty then none else some (digitsToNat ds, cs.dropWhile Char.isDigit)

mutual

/-- Parse one JSON value; returns the value and the remaining input. -/
def parseV : Nat → List Char → Option (Json × List Char)
  | 0, _ => none
  | fuel + 1, cs =>
    match skipWs cs with
    | '[' :: rest =>
      match skipWs rest with
      | ']' :: rest2 => some (.arr [], rest2)
      | rest2 =>
        match parseElems fuel rest2 with
        | some (xs, rest3) => some (.arr xs, rest3)
        | none => none
    | '{' :: rest =>
      match skipWs rest with
      | '}' :: rest2 => some (.obj [], rest2)
      | rest2 =>
        match parseMembers fuel rest2 with
        | some (ms, rest3) => some (.obj ms, rest3)
        | none => none
    | '"' :: rest =>
      match parseStringBody (rest.length + 1) rest [] with
      | some (s, rest2) => some (.str s, rest2)
      | none => none
    | 't' :: 'r' :: 'u' :: 'e' :: rest => some (.bool true, rest)
    | 'f' :: 'a' :: 'l' :: 's' :: 'e' :: rest => some (.bool false, rest)
    | 'n' :: 'u' :: 'l' :: 'l' :: rest => some (.null, rest)
    | '-' :: rest =>
      match parseNat rest with
      | some (n, rest2) => some (.num (-(n : Int)), rest2)
      | none => none
    | c :: rest =>
      if c.isDigit then
        match parseNat (c :: rest) with
        | some (n, rest2) => some (.num (n : Int), rest2)
        | none => none
      else none
    | [] => none

/-- Parse the elements of a nonempty JSON array, up to and including the
closing bracket. -/
def parseElems : Nat → List Char → Option (List Json × List Char)
  | 0, _ => none
  | fuel + 1, cs =>
    match parseV fuel cs with
    | some (v, rest) =>
      match skipWs rest with
      | ',' :: rest2 =>
        match parseElems fuel rest2 with
        | some (xs, rest3) => some (v :: xs, rest3)
        | none => none
      | ']' :: rest2 => some ([v], rest2)
      | _ => none
    | none => none

/-- Parse the members of a nonempty JSON object, up to and including the
closing brace. -/
def parseMembers : Nat → List Char → Option (List (String × Json) × List Char)
  | 0, _ => none
  | fuel + 1, cs =>
    match skipWs cs with
    | '"' :: rest =>
      match parseStringBody (rest.length + 1) rest [] with
      | some (k, rest2) =>
        match skipWs rest2 with
        | ':' :: rest3 =>
          match parseV fuel rest3 with
          | some (v, rest4) =>
            match skipWs rest4 with
            | ',' :: rest5 =>
              match parseMembers fuel rest5 with
              | some (ms, rest6) => some ((k, v) :: ms, rest6)
              | none => none
            | '}' :: rest5 => some ([(k, v)], rest5)
            | _ => none
          | none => none
        | _ => none
      | none => none
    | _ => none

end

/-- Model of Python `json.loads`: parse one value and require that only
whitespace remains (Python raises `JSONDecodeError` for extra data).
The fuel bound `2 * length + 2` dominates the recursion depth, which consumes
at most two units per input character. -/
def jsonParse (s : String) : Option Json :=
  match parseV (2 * s.toList.length + 2) s.toList with
  | some (v, rest) => if (skipWs rest).isEmpty then some v else none
  | none => none

/-! ## Python views of JSON-derived values -/

/-- Python `len` on a value produced by `json.loads`.  `len` of a number,
boolean or `None` raises `TypeError` in Python; those cases are unreachable
here (every value this is applied to was parsed from a substring beginning
with a bracket, hence is a list or a dict, or is one of the list/dict
fallback constants). -/
def pyLenJ : Json → Nat
  | .arr xs => xs.length
  | .obj ms => ms.length
  | .str s => s.toList.length
  | _ => 0

mutual

/-- Python `repr` of a JSON-derived value (strings quoted), used for values
nested inside containers when a container is interpolated. -/
def pyReprJ : Json → String
  | .str s => "\x27" ++ s ++ "\x27"
  | .num n => toString n
  | .bool true => "True"
  | .bool false => "False"
  | .null => "None"
  | .arr xs => "[" ++ pyReprList xs ++ "]"
  | .obj ms => "\x7b" ++ pyReprMembers ms ++ "\x7d"

/-- Comma-joined `repr` of list elements. -/
def pyReprList : List Json → String
  | [] => ""
  | [x] => pyReprJ x
  | x :: y :: xs => pyReprJ x ++ ", " ++ pyReprList (y :: xs)

/-- Comma-joined `repr` of dict members. -/
def pyReprMembers : List (String × Json) → String
  | [] => ""
  | [(k, v)] => "\x27" ++ k ++ "\x27: " ++ pyReprJ v
  | (k, v) :: m :: ms => "\x27" ++ k ++ "\x27: " ++ pyReprJ v ++ ", " ++ pyReprMembers (m :: ms)

end

/-- Python f-string interpolation `f"{v}"` of a JSON-derived value: `str()`
semantics, so a string interpolates as itself, other scalars as their
Python rendering, and containers by their `repr`. -/
def pyStr : Json → String
  | .str s => s
  | j => pyReprJ j

/-- The elements of a JSON array.  Applied only to values parsed from a
substring whose first character is `[`, which a successful JSON parse can
only turn into an array, so the default branch is unreachable. -/
def Json.asList : Json → List Json
  | .arr xs => xs
  | _ => []

/-- Python `dict.get(key, default)` on a value produced by `json.loads`
(duplicate keys in JSON text resolve to the last occurrence, as in Python;
`.get` on a non-dict raises in Python, but every value this is applied to
was parsed from a substring beginning with `{`, hence is a dict, or is one
of the dict fallback constants). -/
def jsonGet (j : Json) (key : String) (default : Json) : Json :=
  match j with
  | .obj ms => (((ms.filter (fun m => m.1 == key)).getLast?).map (fun m => m.2)).getD default
  | _ => default

/-- Whether a JSON value is a dict carrying the given key. -/
def Json.hasField (j : Json) (key : String) : Bool :=
  match j with
  | .obj ms => ms.any (fun m => m.1 == key)
  | _ => false

/-! ## The shared state (`AgentState` TypedDict of `main.py`) -/

/-- One Tavily search hit; the program reads the keys `title`, `url` and
`content` with `dict.get` defaults, so each is optional. -/
structure SearchResult where
  title : Option String
  url : Option String
  content : Option String

/-- A Tavily response; the program reads `results` with a `[]` default. -/
structure TavilyResponse where
  results : Option (List SearchResult)

/-- The dict built for each search hit in Discovery phase 2. -/
structure RawCompetitor where
  name : String
  url : String
  description : String
  source : String
deriving Repr, DecidableEq

/-- The `agent_status` dict: one status string per stage. -/
structure AgentStatus where
  firecrawl : String
  analysis : String
  comparison : String
deriving Repr, DecidableEq

/-- The shared blackboard state (`AgentState` in `main.py`).  `search_queries`
and `competitors` hold whatever `json.loads` produced (the TypedDict
annotations are not enforced at runtime), so they are modelled as JSON
values. -/
structure AgentState where
  user_input : String
  analysis_mode : String
  messages : List String
  search_queries : List Json
  raw_competitors : List RawCompetitor
  competitors : Json
  competitive_analysis : String
  market_gaps : List String
  competitor_weaknesses : List String
  feature_comparison : Json
  strategic_recommendations : String
  agent_status : AgentStatus

/-- The initial state built by `run_competitor_analysis`. -/
def initialState (user_input mode : String) : AgentState :=
  { user_input := user_input
    analysis_mode := mode
    messages := []
    search_queries := []
    raw_competitors := []
    competitors := .arr []
    competitive_analysis := ""
    market_gaps := []
    competitor_weaknesses := []
    feature_comparison := .obj []
    strategic_recommendations := ""
    agent_status := { firecrawl := "pending", analysis := "pending", comparison := "pending" } }

/-! ## Agent 1: `firecrawl_agent` (Discovery) -/

/-- The generic fallback query list of Discovery phase 1. -/
def fallbackQueries : List Json :=
  [.str "competitors", .str "alternatives", .str "similar products"]

/-- The synthetic placeholder competitor of Discovery phase 3. -/
def fallbackCompetitor : Json :=
  .obj [("name", .str "Competitor A"),
        ("url", .str "competitor-a.com"),
        ("description", .str "Leading market player"),
        ("category", .str "SaaS"),
        ("relevanceScore", .num 8),
        ("marketPosition", .str "leader"),
        ("relevanceReason", .str "Direct competitor")]

/-- The dict appended to `all_competitors` for one search hit. -/
def toRawCompetitor (r : SearchResult) : RawCompetitor :=
  { name := r.title.getD "Unknown"
    url := r.url.getD ""
    description := pyTake (r.content.getD "") 200
    source := "web_search" }

/-- The search loop of Discovery phase 2 over the (already truncated) query
list: one search call per query with the query interpolated next to the
business input and `max_results=3`; a raising call is caught and skipped.
Returns the accumulated raw competitors and, as an observation of the
external interaction, the list of issued (query, max_results) calls. -/
def runSearches (user_input : String)
    (searchFn : String → Nat → Except String TavilyResponse) :
    List Json → List RawCompetitor × List (String × Nat)
  | [] => ([], [])
  | q :: qs =>
    let queryStr := pyStr q ++ " " ++ user_input
    let rest := runSearches user_input searchFn qs
    match searchFn queryStr 3 with
    | .ok resp => ((resp.results.getD []).map toRawCompetitor ++ rest.1, (queryStr, 3) :: rest.2)
    | .error _ => (rest.1, (queryStr, 3) :: rest.2)

/-- Entry of `firecrawl_agent`: status to `working`, progress message. -/
def firecrawlEntry (st : AgentState) : AgentState :=
  { st with
    agent_status := { st.agent_status with firecrawl := "working" }
    messages := st.messages ++ ["[Firecrawl Agent] Starting competitor discovery"] }

/-- Discovery phases 2 and 3, after the planned queries are known: execute
the searches for the first 3 queries, then extract the ranked competitor
list from the ranking response with the dual fallback. -/
def firecrawlRest (st : AgentState)
    (searchFn : String → Nat → Except String TavilyResponse)
    (rankResp : String) (queries : List Json) :
    AgentState × List (String × Nat) :=
  let st1 := { st with
    search_queries := queries
    messages := st.messages ++
      ["[Firecrawl Agent] Planned " ++ toString queries.length ++ " search strategies"] }
  let searched := runSearches st1.user_input searchFn (queries.take 3)
  let st2 := { st1 with
    raw_competitors := searched.1
    messages := st1.messages ++
      ["[Firecrawl Agent] Found " ++ toString searched.1.length ++ " potential competitors"] }
  let competitors : Json :=
    match reSpan '[' ']' rankResp with
    | some sub =>
      match jsonParse sub with
      | some v => v
      | none => .arr [fallbackCompetitor]
    | none => .arr []
  let st3 := { st2 with
    competitors := competitors
    messages := st2.messages ++
      ["[Firecrawl Agent] Selected top " ++ toString (pyLenJ competitors) ++ " competitors"]
    agent_status := { st2.agent_status with firecrawl := "complete" } }
  (st3, searched.2)

/-- `firecrawl_agent` of `main.py`.  The planning response and the ranking
response are the `.content` of the two `llm.invoke` calls; `searchFn` is
the Tavily client.  The planning phase extracts a query list with only the
no-bracket fallback: `json.loads` is not guarded there, so a parse failure
raises `json.JSONDecodeError`, modelled as the error result. -/
def firecrawl_agent (st : AgentState) (planResp : String)
    (searchFn : String → Nat → Except String TavilyResponse)
    (rankResp : String) :
    Except String (AgentState × List (String × Nat)) :=
  let st1 := firecrawlEntry st
  match reSpan '[' ']' planResp with
  | some sub =>
    match jsonParse sub with
    | some v => .ok (firecrawlRest st1 searchFn rankResp v.asList)
    | none => .error "JSONDecodeError"
  | none => .ok (firecrawlRest st1 searchFn rankResp fallbackQueries)

/-! ## Agent 2: `analysis_agent` -/

/-- The fixed default for `market_gaps` when its heading is absent. -/
def gapsDefault : List String :=
  ["Underserved market segments", "Feature gaps in existing solutions"]

/-- The fixed default for `competitor_weaknesses` when its heading is absent. -/
def weaknessesDefault : List String := ["Pricing complexity", "Limited features"]

/-- The section extraction of `analysis_agent`:
`analysis.split(heading)[1].split("##")[0]`, split into lines, keeping lines
whose stripped form is truthy and whose raw length exceeds 20, storing the
stripped form, capped at 5.  (Guarded by the `heading in analysis` check, so
index 1 exists whenever this is reached.) -/
def extractSection (analysis heading : String) : List String :=
  let sec := ((pySplit "##" ((pySplit heading analysis).getD 1 "")).getD 0 "")
  (((pySplit "\n" sec).filter
      (fun line => pyTruthy (pyStrip line) && decide (20 < pyLenS line))).map pyStrip).take 5

/-- Entry of `analysis_agent`: status to `working`, progress message. -/
def analysisEntry (st : AgentState) : AgentState :=
  { st with
    agent_status := { st.agent_status with analysis := "working" }
    messages := st.messages ++ ["[Analysis Agent] Starting competitive analysis"] }

/-- `analysis_agent` of `main.py`.  `narrativeResp` is the `.content` of the
single `llm.invoke` call. -/
def analysis_agent (st : AgentState) (narrativeResp : String) : AgentState :=
  let st1 := analysisEntry st
  let market_gaps :=
    if pyContains narrativeResp "Market Positioning & Gaps" then
      extractSection narrativeResp "Market Positioning & Gaps"
    else gapsDefault
  let competitor_weaknesses :=
    if pyContains narrativeResp "Competitor Weaknesses" then
      extractSection narrativeResp "Competitor Weaknesses"
    else weaknessesDefault
  { st1 with
    competitive_analysis := narrativeResp
    market_gaps := market_gaps
    competitor_weaknesses := competitor_weaknesses
    messages := st1.messages ++ ["[Analysis Agent] Generated comprehensive analysis"]
    agent_status := { st1.agent_status with analysis := "complete" } }

/-! ## Agent 3: `comparison_agent` -/

/-- The single placeholder feature of the matrix fallback. -/
def placeholderFeature : Json :=
  .obj [("name", .str "AI Features"),
        ("yourOpportunity", .str "Build"),
        ("competitors", .obj [("Competitor A", .str "Partial")]),
        ("strategicValue", .str "Differentiation"),
        ("implementationComplexity", .str "Medium")]

/-- The placeholder matrix used when a brace span is found but fails to parse. -/
def placeholderMatrix : Json := .obj [("features", .arr [placeholderFeature])]

/-- Entry of `comparison_agent`: status to `working`, progress message. -/
def comparisonEntry (st : AgentState) : AgentState :=
  { st with
    agent_status := { st.agent_status with comparison := "working" }
    messages := st.messages ++ ["[Comparison Agent] Creating feature comparison"] }

/-- `comparison_agent` of `main.py`.  `matrixResp` and `strategyResp` are the
`.content` of its two `llm.invoke` calls. -/
def comparison_agent (st : AgentState) (matrixResp strategyResp : String) : AgentState :=
  let st1 := comparisonEntry st
  let comparison : Json :=
    match reSpan '{' '}' matrixResp with
    | some sub =>
      match jsonParse sub with
      | some v => v
      | none => placeholderMatrix
    | none => .obj [("features", .arr [])]
  let st2 := { st1 with
    feature_comparison := comparison
    messages := st1.messages ++
      ["[Comparison Agent] Created comparison with " ++
        toString (pyLenJ (jsonGet comparison "features" (.arr []))) ++ " features"] }
  { st2 with
    strategic_recommendations := strategyResp
    messages := st2.messages ++ ["[Comparison Agent] Generated strategic recommendations"]
    agent_status := { st2.agent_status with comparison := "complete" } }

/-! ## Pipeline driver (`create_workflow` + `run_competitor_analysis`) -/

/-- `run_competitor_analysis` of `main.py`: build the initial state and run
the linear `firecrawl -> analysis -> comparison` graph, each stage once, in
that order.  The uncaught `JSONDecodeError` of the Discovery planning phase
propagates out of the driver. -/
def run_competitor_analysis (user_input mode : String) (planResp : String)
    (searchFn : String → Nat → Except String TavilyResponse)
    (rankResp narrativeResp matrixResp strategyResp : String) :
    Except String AgentState :=
  match firecrawl_agent (initialState user_input mode) planResp searchFn rankResp with
  | .ok res => .ok (comparison_agent (analysis_agent res.1 narrativeResp) matrixResp strategyResp)
  | .error e => .error e

/-! ## Concrete run inputs used by witnesses and counterexamples -/

/-- A concrete business input. -/
def demoState : AgentState := initialState "acme widgets" "description"

/-- A search client whose every call raises. -/
def noSearch : String → Nat → Except String TavilyResponse :=
  fun _ _ => .error "network down"

/-- A search client returning one hit per call. -/
def okSearch : String → Nat → Except String TavilyResponse :=
  fun _ _ => .ok ⟨some [⟨some "Rival", some "rival.com", some "A rival product"⟩]⟩

/-- A search client that raises on exactly the second fallback query and
returns one hit otherwise. -/
def flakySearch : String → Nat → Except String TavilyResponse :=
  fun q _ =>
    if q = "alternatives acme widgets" then .error "timeout"
    else .ok ⟨some [⟨some "Rival", some "rival.com", some "A rival product"⟩]⟩

/-- A planning response carrying four well-formed queries. -/
def demoPlan : String := "[\"ai tools\", \"crm software\", \"email clients\", \"spreadsheets\"]"

/-- A ranking response carrying one well-formed competitor record. -/
def demoRank : String :=
  "[\x7b\"name\": \"Rival\", \"url\": \"rival.com\", \"description\": \"d\", \"category\": \"SaaS\", \"relevanceScore\": 9, \"marketPosition\": \"leader\", \"relevanceReason\": \"r\"\x7d]"

/-- A narrative carrying both expected headings with qualifying lines. -/
def demoNarrative : String :=
  "## Market Positioning & Gaps\nCompetitors cluster at the premium end of the market today.\n## Competitor Weaknesses\nRival has a confusing pricing page and weak mobile support.\n## Pricing & Business Model Insights\nFlat pricing dominates."

/-- A matrix response carrying one well-formed feature. -/
def demoMatrix : String :=
  "\x7b\"features\": [\x7b\"name\": \"API\", \"yourOpportunity\": \"Build\", \"competitors\": \x7b\"Rival\": \"Partial\"\x7d, \"strategicValue\": \"v\", \"implementationComplexity\": \"Low\"\x7d]\x7d"

/-- A strategy response. -/
def demoStrategy : String := "## Immediate Actions\nShip the API first."

/-- Project the state out of a Discovery result, with a default for the
error case. -/
def okState (r : Except String (AgentState × List (String × Nat))) (d : AgentState) : AgentState :=
  match r with
  | .ok res => res.1
  | .error _ => d

/-- Project the issued search calls out of a Discovery result. -/
def okCalls (r : Except String (AgentState × List (String × Nat))) : List (String × Nat) :=
  match r with
  | .ok res => res.2
  | .error _ => []

/-- Project the state out of a pipeline result, with a default for the
error case. -/
def okFinal (r : Except String AgentState) (d : AgentState) : AgentState :=
  match r with
  | .ok st => st
  | .error _ => d

/-- A narrative whose headings are both present but whose sections contain
no line passing the length filter. -/
def c5Narrative : String :=
  "## Market Positioning & Gaps\n## Competitor Weaknesses\nshort"

/-- A narrative whose gaps section consists of a single line whose raw
length exceeds 20 characters only because of surrounding whitespace. -/
def c10Narrative : String :=
  "## Market Positioning & Gaps\n      gaps ahead x      \n## Competitor Weaknesses\nRival pricing is unclear and the product is hard to set up."

/-- Numeric order of the stage statuses: pending before working before
complete (any other string is ranked above all three; none occurs). -/
def statusRank (s : String) : Nat :=
  if s = "pending" then 0 else if s = "working" then 1 else if s = "complete" then 2 else 3

/-- One forward step of the pipeline trace: every stage status moves only
forward and the message log only grows. -/
def stepOk (a b : AgentState) : Prop :=
  statusRank a.agent_status.firecrawl ≤ statusRank b.agent_status.firecrawl ∧
  statusRank a.agent_status.analysis ≤ statusRank b.agent_status.analysis ∧
  statusRank a.agent_status.comparison ≤ statusRank b.agent_status.comparison ∧
  a.messages.length ≤ b.messages.length

/-- A complete concrete pipeline run. -/
def demoRun : Except String AgentState :=
  run_competitor_analysis "acme widgets" "description" demoPlan okSearch demoRank
    demoNarrative demoMatrix demoStrategy

/-! ## Helper lemmas -/

lemma append_singleton_ne_nil {α : Type} (l : List α) (a : α) : l ++ [a] ≠ [] := by simp

lemma pyStr_str (s : String) : pyStr (.str s) = s := rfl

lemma firecrawlEntry_user_input (st : AgentState) :
    (firecrawlEntry st).user_input = st.user_input := rfl

/-- The issued search calls: one per query, in order, the query interpolated
next to the business input, `max_results = 3`, whether or not the call
raised. -/
lemma runSearches_calls (user : String)
    (searchFn : String → Nat → Except String TavilyResponse) (qs : List Json) :
    (runSearches user searchFn qs).2 = qs.map (fun q => (pyStr q ++ " " ++ user, 3)) := by
  induction qs with
  | nil => rfl
  | cons q qs ih =>
    simp only [runSearches]
    cases h : searchFn (pyStr q ++ " " ++ user) 3 <;> simp [h, ih]

/-- Any successful Discovery result is the phases-2-and-3 body applied to
the entry state and some planned query list. -/
lemma firecrawl_ok_shape (st : AgentState) (planResp : String)
    (searchFn : String → Nat → Except String TavilyResponse) (rankResp : String)
    (st' : AgentState) (calls : List (String × Nat))
    (hok : firecrawl_agent st planResp searchFn rankResp = .ok (st', calls)) :
    ∃ queries, st' = (firecrawlRest (firecrawlEntry st) searchFn rankResp queries).1 ∧
      calls = (firecrawlRest (firecrawlEntry st) searchFn rankResp queries).2 := by
  simp only [firecrawl_agent] at hok
  split at hok
  next sub h1 =>
    split at hok
    next v h2 =>
      injection hok with h
      exact ⟨v.asList, (congrArg Prod.fst h).symm, (congrArg Prod.snd h).symm⟩
    next h2 => exact Except.noConfusion hok
  next h1 =>
    injection hok with h
    exact ⟨fallbackQueries, (congrArg Prod.fst h).symm, (congrArg Prod.snd h).symm⟩

lemma firecrawlRest_fst_competitors (st : AgentState)
    (searchFn : String → Nat → Except String TavilyResponse)
    (rankResp : String) (queries : List Json) :
    (firecrawlRest st searchFn rankResp queries).1.competitors =
      match reSpan '[' ']' rankResp with
      | some sub =>
        match jsonParse sub with
        | some v => v
        | none => .arr [fallbackCompetitor]
      | none => .arr [] := rfl

lemma firecrawlRest_fst_messages (st : AgentState)
    (searchFn : String → Nat → Except String TavilyResponse)
    (rankResp : String) (queries : List Json) :
    (firecrawlRest st searchFn rankResp queries).1.messages =
      st.messages ++
        ["[Firecrawl Agent] Planned " ++ toString queries.length ++ " search strategies",
         "[Firecrawl Agent] Found " ++
           toString (runSearches st.user_input searchFn (queries.take 3)).1.length ++
           " potential competitors",
         "[Firecrawl Agent] Selected top " ++
           toString (pyLenJ ((firecrawlRest st searchFn rankResp queries).1.competitors)) ++
           " competitors"] := by
  simp only [firecrawlRest]
  simp [List.append_assoc]

lemma comparison_agent_feature_comparison (st : AgentState) (matrixResp strategyResp : String) :
    (comparison_agent st matrixResp strategyResp).feature_comparison =
      match reSpan '{' '}' matrixResp with
      | some sub =>
        match jsonParse sub with
        | some v => v
        | none => placeholderMatrix
      | none => .obj [("features", .arr [])] := rfl

lemma analysis_agent_market_gaps (st : AgentState) (narrativeResp : String) :
    (analysis_agent st narrativeResp).market_gaps =
      if pyContains narrativeResp "Market Positioning & Gaps" then
        extractSection narrativeResp "Market Positioning & Gaps"
      else gapsDefault := rfl

lemma analysis_agent_weaknesses (st : AgentState) (narrativeResp : String) :
    (analysis_agent st narrativeResp).competitor_weaknesses =
      if pyContains narrativeResp "Competitor Weaknesses" then
        extractSection narrativeResp "Competitor Weaknesses"
      else weaknessesDefault := rfl

/-! ## Claims -/

/-- C1: in Discovery, for every ranking output with no bracketed substring
the competitor list becomes the empty list, and for every ranking output
whose bracketed substring fails to parse it becomes exactly the one-element
synthetic placeholder list; in both cases the stage completes with status
`complete`. -/
theorem c1_ranking_fallback_asymmetry (st : AgentState) (planResp : String)
    (searchFn : String → Nat → Except String TavilyResponse) (rankResp : String)
    (st' : AgentState) (calls : List (String × Nat))
    (hok : firecrawl_agent st planResp searchFn rankResp = .ok (st', calls)) :
    (reSpan '[' ']' rankResp = none →
      st'.competitors = .arr [] ∧ st'.agent_status.firecrawl = "complete") ∧
    (∀ sub, reSpan '[' ']' rankResp = some sub → jsonParse sub = none →
      st'.competitors = .arr [fallbackCompetitor] ∧ st'.agent_status.firecrawl = "complete") := by
  obtain ⟨queries, hst, -⟩ := firecrawl_ok_shape st planResp searchFn rankResp st' calls hok
  subst hst
  refine ⟨fun h => ⟨?_, rfl⟩, fun sub h1 h2 => ⟨?_, rfl⟩⟩
  · simp [firecrawlRest_fst_competitors, h]
  · simp [firecrawlRest_fst_competitors, h1, h2]

theorem c1_witness :
    ((okState (firecrawl_agent demoState demoPlan okSearch "plain prose") demoState).competitors
        = .arr []
      ∧ (okState (firecrawl_agent demoState demoPlan okSearch "plain prose")
          demoState).agent_status.firecrawl = "complete") ∧
    ((okState (firecrawl_agent demoState demoPlan okSearch "[nope nope]") demoState).competitors
        = .arr [fallbackCompetitor]
      ∧ (okState (firecrawl_agent demoState demoPlan okSearch "[nope nope]")
          demoState).agent_status.firecrawl = "complete") := by
  refine ⟨(c1_ranking_fallback_asymmetry demoState demoPlan okSearch "plain prose" _ _
      (by rfl)).1 (by rfl),
    (c1_ranking_fallback_asymmetry demoState demoPlan okSearch "[nope nope]" _ _
      (by rfl)).2 "[nope nope]" (by rfl) (by rfl)⟩

/-- C2 counterexample: a planning output in which a bracketed substring is
found but fails to parse as JSON does not fall back to the generic query
list — the `json.loads` failure propagates out of the stage, so the claim
that extraction failure always yields the fixed 3-query list and is never
propagated is false. -/
theorem c2_counterexample :
    reSpan '[' ']' "[oops]" = some "[oops]" ∧ jsonParse "[oops]" = none ∧
    firecrawl_agent demoState "[oops]" noSearch demoRank = .error "JSONDecodeError" := by
  refine ⟨rfl, rfl, rfl⟩

/-- C2 (amended): in Discovery query planning, the fixed generic 3-query
list is installed only when no bracketed substring is found in the model
output, and the stage then continues normally to completion; when a
substring is found but fails to parse as JSON, the decode error propagates
to the caller and the stage aborts. -/
theorem c2_planning_fallback_amended (st : AgentState) (planResp : String)
    (searchFn : String → Nat → Except String TavilyResponse) (rankResp : String) :
    (reSpan '[' ']' planResp = none →
      ∃ res, firecrawl_agent st planResp searchFn rankResp = .ok res ∧
        res.1.search_queries = fallbackQueries ∧
        res.1.agent_status.firecrawl = "complete") ∧
    (∀ sub, reSpan '[' ']' planResp = some sub → jsonParse sub = none →
      firecrawl_agent st planResp searchFn rankResp = .error "JSONDecodeError") := by
  constructor
  · intro h
    refine ⟨firecrawlRest (firecrawlEntry st) searchFn rankResp fallbackQueries, ?_, rfl, rfl⟩
    simp [firecrawl_agent, h]
  · intro sub h1 h2
    simp [firecrawl_agent, h1, h2]

theorem c2_witness :
    (∃ res, firecrawl_agent demoState "plain prose" noSearch demoRank = .ok res ∧
      res.1.search_queries = fallbackQueries ∧
      res.1.agent_status.firecrawl = "complete") ∧
    firecrawl_agent demoState "[nope]" noSearch demoRank = .error "JSONDecodeError" := by
  refine ⟨(c2_planning_fallback_amended demoState "plain prose" noSearch demoRank).1 (by rfl),
    (c2_planning_fallback_amended demoState "[nope]" noSearch demoRank).2 "[nope]"
      (by rfl) (by rfl)⟩

/-- C3 counterexample: a run in which the second search call raises.  The
error is caught and the remaining query is still searched (all three calls
are issued and two hits are collected), but no progress message documenting
the skipped search is appended to `messages` — the four appended messages
are exactly the fixed per-phase progress notes. -/
theorem c3_counterexample :
    flakySearch "alternatives acme widgets" 3 = .error "timeout" ∧
    okCalls (firecrawl_agent demoState "plain prose" flakySearch "also prose") =
      [("competitors acme widgets", 3), ("alternatives acme widgets", 3),
       ("similar products acme widgets", 3)] ∧
    (okState (firecrawl_agent demoState "plain prose" flakySearch "also prose")
        demoState).raw_competitors.length = 2 ∧
    (okState (firecrawl_agent demoState "plain prose" flakySearch "also prose")
        demoState).messages =
      ["[Firecrawl Agent] Starting competitor discovery",
       "[Firecrawl Agent] Planned 3 search strategies",
       "[Firecrawl Agent] Found 2 potential competitors",
       "[Firecrawl Agent] Selected top 0 competitors"] := by
  refine ⟨rfl, rfl, rfl, rfl⟩

/-- C3 (amended): if an individual web-search call inside Discovery raises,
the error is caught per-call and the remaining queries are still processed —
every one of the first three planned queries is issued as a search call and
the stage completes with a final competitor list — but no progress message
documenting the skipped search is appended to `messages`: the messages
appended by the stage are exactly the four fixed progress notes (the error
is only printed to standard output, outside the shared state). -/
theorem c3_search_failure_amended (st : AgentState) (planResp : String)
    (searchFn : String → Nat → Except String TavilyResponse) (rankResp : String)
    (st' : AgentState) (calls : List (String × Nat))
    (hok : firecrawl_agent st planResp searchFn rankResp = .ok (st', calls)) :
    st'.agent_status.firecrawl = "complete" ∧
    calls = (st'.search_queries.take 3).map (fun q => (pyStr q ++ " " ++ st.user_input, 3)) ∧
    st'.messages = st.messages ++
      ["[Firecrawl Agent] Starting competitor discovery",
       "[Firecrawl Agent] Planned " ++ toString st'.search_queries.length ++
         " search strategies",
       "[Firecrawl Agent] Found " ++ toString st'.raw_competitors.length ++
         " potential competitors",
       "[Firecrawl Agent] Selected top " ++ toString (pyLenJ st'.competitors) ++
         " competitors"] := by
  obtain ⟨queries, hst, hcalls⟩ :=
    firecrawl_ok_shape st planResp searchFn rankResp st' calls hok
  subst hst hcalls
  refine ⟨rfl, ?_, ?_⟩
  · show (runSearches (firecrawlEntry st).user_input searchFn (queries.take 3)).2 = _
    rw [runSearches_calls]
    rfl
  · rw [firecrawlRest_fst_messages]
    simp [firecrawlEntry, List.append_assoc]
    exact ⟨rfl, rfl⟩

theorem c3_witness :
    (okState (firecrawl_agent demoState "plain prose" flakySearch "also prose")
        demoState).agent_status.firecrawl = "complete" ∧
    okCalls (firecrawl_agent demoState "plain prose" flakySearch "also prose") =
      ((okState (firecrawl_agent demoState "plain prose" flakySearch "also prose")
          demoState).search_queries.take 3).map
        (fun q => (pyStr q ++ " " ++ demoState.user_input, 3)) := by
  have h := c3_search_failure_amended demoState "plain prose" flakySearch "also prose"
    _ _ (by rfl)
  exact ⟨h.1, h.2.1⟩

/-- C4: in the Comparison matrix phase, for every model output whose brace
substring is found but fails to parse, `feature_comparison` becomes the
placeholder matrix, whose `features` list has exactly one element; for
every model output with no brace substring, it becomes a matrix whose
`features` list is empty. -/
theorem c4_matrix_fallback_asymmetry (st : AgentState) (matrixResp strategyResp : String) :
    (∀ sub, reSpan '{' '}' matrixResp = some sub → jsonParse sub = none →
      (comparison_agent st matrixResp strategyResp).feature_comparison = placeholderMatrix ∧
      jsonGet (comparison_agent st matrixResp strategyResp).feature_comparison
          "features" (.arr []) = .arr [placeholderFeature] ∧
      pyLenJ (jsonGet (comparison_agent st matrixResp strategyResp).feature_comparison
          "features" (.arr [])) = 1) ∧
    (reSpan '{' '}' matrixResp = none →
      (comparison_agent st matrixResp strategyResp).feature_comparison =
        .obj [("features", .arr [])] ∧
      jsonGet (comparison_agent st matrixResp strategyResp).feature_comparison
          "features" (.arr []) = .arr []) := by
  constructor
  · intro sub h1 h2
    have hfc : (comparison_agent st matrixResp strategyResp).feature_comparison =
        placeholderMatrix := by
      simp [comparison_agent_feature_comparison, h1, h2]
    exact ⟨hfc, by rw [hfc]; rfl, by rw [hfc]; rfl⟩
  · intro h
    have hfc : (comparison_agent st matrixResp strategyResp).feature_comparison =
        .obj [("features", .arr [])] := by
      simp [comparison_agent_feature_comparison, h]
    exact ⟨hfc, by rw [hfc]; rfl⟩

theorem c4_witness :
    ((comparison_agent demoState "\x7boops\x7d" demoStrategy).feature_comparison =
        placeholderMatrix ∧
      jsonGet (comparison_agent demoState "\x7boops\x7d" demoStrategy).feature_comparison
          "features" (.arr []) = .arr [placeholderFeature] ∧
      pyLenJ (jsonGet (comparison_agent demoState "\x7boops\x7d" demoStrategy).feature_comparison
          "features" (.arr [])) = 1) ∧
    ((comparison_agent demoState "no braces" demoStrategy).feature_comparison =
        .obj [("features", .arr [])] ∧
      jsonGet (comparison_agent demoState "no braces" demoStrategy).feature_comparison
          "features" (.arr []) = .arr []) := by
  refine ⟨(c4_matrix_fallback_asymmetry demoState "\x7boops\x7d" demoStrategy).1 "\x7boops\x7d"
      (by rfl) (by rfl),
    (c4_matrix_fallback_asymmetry demoState "no braces" demoStrategy).2 (by rfl)⟩

/-- C5 counterexample: a narrative containing the heading
"Market Positioning & Gaps" for which the stage leaves `market_gaps`
empty (the section holds no non-blank line longer than 20 characters),
refuting the claim that the stage never leaves the field empty. -/
theorem c5_counterexample :
    pyContains c5Narrative "Market Positioning & Gaps" = true ∧
    (analysis_agent demoState c5Narrative).market_gaps = [] ∧
    pyContains c5Narrative "Competitor Weaknesses" = true ∧
    (analysis_agent demoState c5Narrative).competitor_weaknesses = [] := by
  refine ⟨rfl, rfl, rfl, rfl⟩

/-- C5 (amended): for every narrative, if the heading text occurs, the
field equals the stripped forms of the lines of the substring between the
first occurrence of that heading and the next `##` marker that are
non-blank and whose raw length exceeds 20 characters, capped at 5 lines;
if the heading text is absent, the field equals the fixed two-item default
exactly; the stage never fails, but the field may be left empty when the
heading is present and no line passes the filter. -/
theorem c5_section_extraction_amended (st : AgentState) (narrativeResp : String) :
    (analysis_agent st narrativeResp).competitive_analysis = narrativeResp ∧
    (pyContains narrativeResp "Market Positioning & Gaps" = true →
      (analysis_agent st narrativeResp).market_gaps =
        (((pySplit "\n" ((pySplit "##"
              ((pySplit "Market Positioning & Gaps" narrativeResp).getD 1 "")).getD 0 "")).filter
            (fun line => pyTruthy (pyStrip line) && decide (20 < pyLenS line))).map
          pyStrip).take 5) ∧
    (pyContains narrativeResp "Market Positioning & Gaps" = false →
      (analysis_agent st narrativeResp).market_gaps =
        ["Underserved market segments", "Feature gaps in existing solutions"]) ∧
    (pyContains narrativeResp "Competitor Weaknesses" = true →
      (analysis_agent st narrativeResp).competitor_weaknesses =
        (((pySplit "\n" ((pySplit "##"
              ((pySplit "Competitor Weaknesses" narrativeResp).getD 1 "")).getD 0 "")).filter
            (fun line => pyTruthy (pyStrip line) && decide (20 < pyLenS line))).map
          pyStrip).take 5) ∧
    (pyContains narrativeResp "Competitor Weaknesses" = false →
      (analysis_agent st narrativeResp).competitor_weaknesses =
        ["Pricing complexity", "Limited features"]) := by
  refine ⟨rfl, fun h => ?_, fun h => ?_, fun h => ?_, fun h => ?_⟩ <;>
    simp [analysis_agent_market_gaps, analysis_agent_weaknesses, extractSection,
      gapsDefault, weaknessesDefault, h]

theorem c5_witness :
    (analysis_agent demoState demoNarrative).market_gaps =
      ["Competitors cluster at the premium end of the market today."] ∧
    (analysis_agent demoState demoNarrative).competitor_weaknesses =
      ["Rival has a confusing pricing page and weak mobile support."] ∧
    (analysis_agent demoState "a narrative with no headings").market_gaps =
      ["Underserved market segments", "Feature gaps in existing solutions"] ∧
    (analysis_agent demoState "a narrative with no headings").competitor_weaknesses =
      ["Pricing complexity", "Limited features"] := by
  refine ⟨?_, ?_, ?_, ?_⟩
  · rw [(c5_section_extraction_amended demoState demoNarrative).2.1 (by rfl)]; rfl
  · rw [(c5_section_extraction_amended demoState demoNarrative).2.2.2.1 (by rfl)]; rfl
  · exact (c5_section_extraction_amended demoState "a narrative with no headings").2.2.1 (by rfl)
  · exact (c5_section_extraction_amended demoState
      "a narrative with no headings").2.2.2.2 (by rfl)

/-- C6: for every planned query list of length n, Discovery issues exactly
min(n, 3) web-search calls — one per query, taken from the first queries in
listed order, each concatenating the query with the original business input
and requesting 3 results — and never more than 3 calls. -/
theorem c6_search_call_cap (st : AgentState) (planResp : String)
    (searchFn : String → Nat → Except String TavilyResponse) (rankResp : String)
    (st' : AgentState) (calls : List (String × Nat)) (qs : List String) (sub : String)
    (hspan : reSpan '[' ']' planResp = some sub)
    (hparse : jsonParse sub = some (.arr (qs.map Json.str)))
    (hok : firecrawl_agent st planResp searchFn rankResp = .ok (st', calls)) :
    calls.length = min qs.length 3 ∧ calls.length ≤ 3 ∧
    calls = (qs.take 3).map (fun q => (q ++ " " ++ st.user_input, 3)) := by
  simp only [firecrawl_agent, hspan, hparse] at hok
  injection hok with h
  have hcalls : calls =
      (runSearches st.user_input searchFn (((Json.arr (qs.map Json.str)).asList).take 3)).2 :=
    (congrArg Prod.snd h).symm
  rw [runSearches_calls] at hcalls
  simp only [Json.asList, ← List.map_take, List.map_map] at hcalls
  have hcalls2 : calls = (qs.take 3).map (fun q => (q ++ " " ++ st.user_input, 3)) := by
    rw [hcalls]
    rfl
  refine ⟨?_, ?_, hcalls2⟩ <;>
    simp [hcalls2, List.length_take, Nat.min_comm, Nat.min_le_left, Nat.min_le_right]

theorem c6_witness :
    (okCalls (firecrawl_agent demoState demoPlan okSearch demoRank)).length = min 4 3 ∧
    (okCalls (firecrawl_agent demoState demoPlan okSearch demoRank)).length ≤ 3 ∧
    okCalls (firecrawl_agent demoState demoPlan okSearch demoRank) =
      [("ai tools acme widgets", 3), ("crm software acme widgets", 3),
       ("email clients acme widgets", 3)] := by
  have h := c6_search_call_cap demoState demoPlan okSearch demoRank _ _
    ["ai tools", "crm software", "email clients", "spreadsheets"] demoPlan
    (by rfl) (by rfl) (by rfl)
  exact ⟨h.1, h.2.1, h.2.2.trans (by rfl)⟩

/-- C7: for every completing run, the status-mutation trace (initial state,
each stage entry, each stage exit) moves each stage status only forward
through pending, working, complete, and the message log only grows along
it; the final state has all three stages complete and a nonempty message
log. -/
theorem c7_status_message_invariants (user mode planResp : String)
    (searchFn : String → Nat → Except String TavilyResponse)
    (rankResp narrativeResp matrixResp strategyResp : String) (final : AgentState)
    (hrun : run_competitor_analysis user mode planResp searchFn rankResp narrativeResp
      matrixResp strategyResp = .ok final) :
    ∃ st1 calls,
      firecrawl_agent (initialState user mode) planResp searchFn rankResp = .ok (st1, calls) ∧
      final = comparison_agent (analysis_agent st1 narrativeResp) matrixResp strategyResp ∧
      List.Chain' stepOk
        [initialState user mode, firecrawlEntry (initialState user mode), st1,
         analysisEntry st1, analysis_agent st1 narrativeResp,
         comparisonEntry (analysis_agent st1 narrativeResp), final] ∧
      final.agent_status =
        { firecrawl := "complete", analysis := "complete", comparison := "complete" } ∧
      final.messages ≠ [] := by
  simp only [run_competitor_analysis] at hrun
  split at hrun
  next res hfc =>
    obtain ⟨st1, calls⟩ := res
    injection hrun with hfin
    obtain ⟨queries, hst, -⟩ :=
      firecrawl_ok_shape (initialState user mode) planResp searchFn rankResp st1 calls hfc
    subst hst
    subst hfin
    refine ⟨_, calls, hfc, rfl, ?_, rfl, append_singleton_ne_nil _ _⟩
    simp only [List.chain'_cons, List.chain'_singleton, and_true]
    refine ⟨⟨Nat.zero_le _, Nat.le_refl _, Nat.le_refl _, Nat.zero_le _⟩,
      ⟨Nat.le_succ _, Nat.le_refl _, Nat.le_refl _, ?_⟩,
      ⟨Nat.le_refl _, Nat.zero_le _, Nat.le_refl _, ?_⟩,
      ⟨Nat.le_refl _, Nat.le_succ _, Nat.le_refl _, ?_⟩,
      ⟨Nat.le_refl _, Nat.le_refl _, Nat.zero_le _, ?_⟩,
      ⟨Nat.le_refl _, Nat.le_refl _, Nat.le_succ _, ?_⟩⟩
    · rw [firecrawlRest_fst_messages]
      simp
    · simp [analysisEntry]
    · show (analysisEntry _).messages.length ≤ _
      simp [analysis_agent, analysisEntry]
    · simp [comparisonEntry]
    · show (comparisonEntry _).messages.length ≤ _
      simp [comparison_agent, comparisonEntry]
  next e hfc => exact Except.noConfusion hrun

theorem c7_witness :
    (okFinal demoRun demoState).agent_status =
      { firecrawl := "complete", analysis := "complete", comparison := "complete" } ∧
    (okFinal demoRun demoState).messages ≠ [] := by
  obtain ⟨st1, calls, -, -, -, h4, h5⟩ := c7_status_message_invariants "acme widgets"
    "description" demoPlan okSearch demoRank demoNarrative demoMatrix demoStrategy
    (okFinal demoRun demoState) (by rfl)
  exact ⟨h4, h5⟩

/-- C8: the driver builds a SharedState with every field at its empty
default and all three statuses pending, then runs Discovery, Analysis and
Comparison exactly once each, in that fixed order, with no branching on
intermediate content (whatever state Discovery produces — including an
empty competitor list — flows into Analysis and then Comparison), and
returns the final state. -/
theorem c8_driver_structure (user mode planResp : String)
    (searchFn : String → Nat → Except String TavilyResponse)
    (rankResp narrativeResp matrixResp strategyResp : String) :
    initialState user mode =
      { user_input := user, analysis_mode := mode, messages := [], search_queries := [],
        raw_competitors := [], competitors := .arr [], competitive_analysis := "",
        market_gaps := [], competitor_weaknesses := [], feature_comparison := .obj [],
        strategic_recommendations := "",
        agent_status :=
          { firecrawl := "pending", analysis := "pending", comparison := "pending" } } ∧
    run_competitor_analysis user mode planResp searchFn rankResp narrativeResp matrixResp
        strategyResp =
      Except.map
        (fun res => comparison_agent (analysis_agent res.1 narrativeResp) matrixResp
          strategyResp)
        (firecrawl_agent (initialState user mode) planResp searchFn rankResp) := by
  refine ⟨rfl, ?_⟩
  simp only [run_competitor_analysis]
  cases hfc : firecrawl_agent (initialState user mode) planResp searchFn rankResp <;>
    simp [hfc, Except.map]

/-- C9: when Discovery ranking extraction parses successfully, the parsed
JSON value is stored verbatim in `competitors` with no shape validation;
in particular a ranking output whose bracketed substring is a JSON array
of plain strings yields competitor entries that carry none of the
documented record fields. -/
theorem c9_verbatim_competitors (st : AgentState) (planResp : String)
    (searchFn : String → Nat → Except String TavilyResponse) (rankResp : String)
    (st' : AgentState) (calls : List (String × Nat)) (sub : String) (v : Json)
    (hok : firecrawl_agent st planResp searchFn rankResp = .ok (st', calls))
    (hspan : reSpan '[' ']' rankResp = some sub)
    (hparse : jsonParse sub = some v) :
    st'.competitors = v ∧
    ((okState (firecrawl_agent demoState "plain prose" noSearch "[\"Acme\", \"Globex\"]")
        demoState).competitors = .arr [.str "Acme", .str "Globex"] ∧
      ∀ key, (Json.str "Acme").hasField key = false ∧
        (Json.str "Globex").hasField key = false) := by
  obtain ⟨queries, hst, -⟩ := firecrawl_ok_shape st planResp searchFn rankResp st' calls hok
  subst hst
  refine ⟨?_, rfl, fun key => ⟨rfl, rfl⟩⟩
  simp [firecrawlRest_fst_competitors, hspan, hparse]

theorem c9_witness :
    (okState (firecrawl_agent demoState "plain prose" noSearch "[\"Acme\", \"Globex\"]")
        demoState).competitors = .arr [.str "Acme", .str "Globex"] :=
  (c9_verbatim_competitors demoState "plain prose" noSearch "[\"Acme\", \"Globex\"]"
    _ _ "[\"Acme\", \"Globex\"]" (.arr [.str "Acme", .str "Globex"])
    (by rfl) (by rfl) (by rfl)).1

/-- C10: the section filter measures the raw line (whitespace included)
but stores the stripped line, so a narrative can put an element of at most
20 characters into `market_gaps` even though the filter nominally keeps
only lines longer than 20 characters. -/
theorem c10_filter_length_mismatch :
    pyContains c10Narrative "Market Positioning & Gaps" = true ∧
    (analysis_agent demoState c10Narrative).market_gaps = ["gaps ahead x"] ∧
    pyLenS "gaps ahead x" ≤ 20 ∧ 20 < pyLenS "      gaps ahead x      " := by
  refine ⟨rfl, rfl, by decide, by decide⟩
